import Mathlib

/-!
Shallow embedding of the Gemini proxy repository: the Firebase callable
function `generateWithGemini`, the Firebase HTTP function
`generateWithGeminiHttp`, the scheduled `cleanupLogs` job (all from
`index.js`), and the Express "Genkit Server" app with its `/health` and
`/generate` routes and global IP rate limiter (from the Express server file).

JavaScript values that can be absent / non-string are modelled by
`Option JsValue`; timestamps are `Nat` milliseconds; the upstream Gemini call
is a parameter of type `UpstreamResult` (either generated text or an error
message string, matching the string-inspection the code performs on caught
errors); Firestore is an explicit `Store` value threaded through the handler.
Each handler also emits a trace of `Event`s recording which externally
observable steps ran, in order.
-/

/-- A JavaScript value appearing in a request body field: either a string,
or some non-string value carrying only its truthiness (the code only ever
tests `!x` and `typeof x !== 'string'` on such values). -/
inductive JsValue where
  | str (s : String)
  | other (truthy : Bool)
deriving DecidableEq, Repr

/-- Error kinds of `functions.https.HttpsError` used by the callable. -/
inductive ErrorKind where
  | unauthenticated
  | invalidArgument
  | resourceExhausted
  | internal
deriving DecidableEq, Repr

/-- Result of the upstream `model.generateContent(prompt)` call: the response
text on success, or the thrown error's message string on failure. -/
inductive UpstreamResult where
  | ok (text : String)
  | err (msg : String)
deriving DecidableEq, Repr

/-- One Firestore document in the `rateLimits` collection. -/
structure RateLimitRecord where
  count : Nat
  lastReset : Nat
deriving DecidableEq, Repr

/-- One Firestore document in the `usage_logs` collection. -/
structure UsageLogEntry where
  userId : String
  timestamp : Nat
  promptLength : Nat
  responseLength : Nat
  model : String
deriving DecidableEq, Repr

/-- The Firestore state touched by this code base. -/
structure Store where
  rateLimits : List (String × RateLimitRecord)
  usageLogs : List UsageLogEntry
deriving DecidableEq, Repr

def emptyStore : Store := ⟨[], []⟩

/-- Externally observable steps of one request, in execution order. -/
inductive Event where
  | validate
  | rlRead
  | upstreamCall
  | rlWrite
  | logWrite
deriving DecidableEq, Repr

/-- Outcome of the callable function: a successful `{response, timestamp}`
payload or a thrown `HttpsError` with a kind and message. -/
inductive CallResult where
  | success (response : String) (timestamp : Nat)
  | failure (kind : ErrorKind) (message : String)
deriving DecidableEq, Repr

def oneHour : Nat := 60 * 60 * 1000

/-- Occurrence of `pat` as a contiguous run inside `l` (the semantics of JS
`String.prototype.includes`), written structurally so it evaluates. -/
def charsContain (pat : List Char) : List Char → Bool
  | [] => pat.isEmpty
  | c :: rest => pat.isPrefixOf (c :: rest) || charsContain pat rest

/-- `error.message?.includes(pat)`. -/
def strContains (s pat : String) : Bool := charsContain pat.data s.data

/-- The JS test `s.trim().length === 0`: every character of `s` is
whitespace (in particular, `s` may be empty). -/
def jsTrimEmpty (s : String) : Bool := s.data.all Char.isWhitespace

/-- The JS test `!x || typeof x !== 'string' || x.trim().length === 0`
used on both `prompt` and `apiKey` fields (absent, non-string, or blank). -/
def fieldInvalid : Option JsValue → Bool
  | none => true
  | some (.other _) => true
  | some (.str s) => jsTrimEmpty s

/-- Validation of `data.prompt` in the callable (`index.js` lines 28-42):
the basic presence/type/blank check, then the 8000-character cap. -/
def validatePrompt (prompt : Option JsValue) : Except String String :=
  if fieldInvalid prompt then
    .error "Prompt is required and must be a non-empty string."
  else
    match prompt with
    | some (.str s) =>
        if s.length > 8000 then
          .error "Prompt is too long. Maximum 8000 characters allowed."
        else .ok s
    | _ => .error "Prompt is required and must be a non-empty string."

/-- The rate-limit denial test of `index.js` lines 54-62:
`rateLimitDoc.exists && now - lastReset < oneHour && count >= 20`. -/
def rlDenied (doc : Option RateLimitRecord) (now : Nat) : Bool :=
  match doc with
  | some d => decide (now - d.lastReset < oneHour) && decide (d.count ≥ 20)
  | none => false

/-- Firestore `.collection('rateLimits').doc(userId).get()`. -/
def lookupRL (rls : List (String × RateLimitRecord)) (uid : String) :
    Option RateLimitRecord :=
  (rls.find? (fun p => p.1 == uid)).map Prod.snd

/-- Firestore `rateLimitRef.set({...})`: replace the document for `uid`,
creating it if absent. -/
def setRL (rls : List (String × RateLimitRecord)) (uid : String)
    (r : RateLimitRecord) : List (String × RateLimitRecord) :=
  match rls with
  | [] => [(uid, r)]
  | (k, v) :: rest =>
      if k == uid then (k, r) :: rest else (k, v) :: setRL rest uid r

/-- Classification of a caught upstream error in the callable's `catch`
block (`index.js` lines 110-141): `API_KEY_INVALID` → internal,
`QUOTA_EXCEEDED` → resource-exhausted, `SAFETY` → invalid-argument,
anything else → internal. -/
def classifyUpstreamError (msg : String) : ErrorKind × String :=
  if strContains msg "API_KEY_INVALID" then
    (.internal, "AI service configuration error.")
  else if strContains msg "QUOTA_EXCEEDED" then
    (.resourceExhausted, "AI service quota exceeded. Please try again later.")
  else if strContains msg "SAFETY" then
    (.invalidArgument, "Content was blocked due to safety policies.")
  else
    (.internal, "Failed to generate content.")

/-- The body of the callable after authentication and validation have
passed (`index.js` lines 44-105): rate-limit read and check, upstream call,
rate-limit write, usage-log write. -/
def runGenerate (userId s : String) (now : Nat) (upstream : UpstreamResult)
    (store : Store) : CallResult × Store × List Event :=
  let doc := lookupRL store.rateLimits userId
  if rlDenied doc now then
    (.failure .resourceExhausted "Rate limit exceeded. Try again later.",
      store, [.validate, .rlRead])
  else
    match upstream with
    | .err msg =>
        (.failure (classifyUpstreamError msg).1 (classifyUpstreamError msg).2,
          store, [.validate, .rlRead, .upstreamCall])
    | .ok text =>
        let currentCount :=
          match doc with
          | some d => if now - d.lastReset < oneHour then d.count + 1 else 1
          | none => 1
        let newReset :=
          match doc with
          | some d => if now - d.lastReset < oneHour then d.lastReset else now
          | none => now
        let store1 : Store :=
          { store with
            rateLimits := setRL store.rateLimits userId ⟨currentCount, newReset⟩ }
        let entry : UsageLogEntry :=
          ⟨userId, now, s.length, text.length, "gemini-pro"⟩
        let store2 : Store := { store1 with usageLogs := store1.usageLogs ++ [entry] }
        (.success text now, store2,
          [.validate, .rlRead, .upstreamCall, .rlWrite, .logWrite])

/-- The callable entry point `generateWithGemini` (`index.js` lines 15-143):
authentication context check, prompt validation, then `runGenerate`. -/
def generateWithGemini (auth : Option String) (prompt : Option JsValue)
    (now : Nat) (upstream : UpstreamResult) (store : Store) :
    CallResult × Store × List Event :=
  match auth with
  | none =>
      (.failure .unauthenticated "The function must be called while authenticated.",
        store, [])
  | some userId =>
      match validatePrompt prompt with
      | .error m => (.failure .invalidArgument m, store, [.validate])
      | .ok s => runGenerate userId s now upstream store

/-- Body of an HTTP response produced by the Express app or by the Firebase
HTTP function: a `{response, timestamp}` success payload, an `{error}`
payload, the `/health` payload, or an empty body. -/
inductive HttpBody where
  | success (response : String) (timestamp : Nat)
  | error (message : String)
  | health (status : String) (timestamp : Nat) (service : String)
  | empty
deriving DecidableEq, Repr

structure HttpResponse where
  status : Nat
  body : HttpBody
deriving DecidableEq, Repr

inductive HttpMethod where
  | GET
  | POST
  | OPTIONS
  | otherMethod
deriving DecidableEq, Repr

/-- Classification of a caught upstream error in the Express `/generate`
route's `catch` block: invalid-key class → 401, quota class → 429,
safety class → 400, anything else → 500. -/
def classifyHttpUpstreamError (msg : String) : Nat × String :=
  if strContains msg "API_KEY_INVALID" || strContains msg "invalid API key" then
    (401, "Invalid API key provided")
  else if strContains msg "quota" || strContains msg "QUOTA_EXCEEDED" then
    (429, "API quota exceeded")
  else if strContains msg "SAFETY" then
    (400, "Content was blocked due to safety concerns")
  else
    (500, "Failed to generate content")

/-- The Express `POST /generate` route handler: apiKey check, prompt check,
upstream call, empty-text check, success response; caught errors are
classified by message inspection. -/
def postGenerate (apiKey prompt : Option JsValue) (now : Nat)
    (upstream : UpstreamResult) : HttpResponse × List Event :=
  if fieldInvalid apiKey then
    (⟨400, .error "API key is required and must be a non-empty string"⟩, [])
  else if fieldInvalid prompt then
    (⟨400, .error "Prompt is required and must be a non-empty string"⟩, [.validate])
  else
    match upstream with
    | .err msg =>
        (⟨(classifyHttpUpstreamError msg).1,
          .error (classifyHttpUpstreamError msg).2⟩, [.validate, .upstreamCall])
    | .ok text =>
        if jsTrimEmpty text then
          (⟨500, .error "No content was generated"⟩, [.validate, .upstreamCall])
        else
          (⟨200, .success text now⟩, [.validate, .upstreamCall])

/-- The Express `GET /health` route handler. -/
def healthHandler (now : Nat) : HttpResponse :=
  ⟨200, .health "OK" now "Genkit Server"⟩

/-- Window capacity of the `express-rate-limit` middleware installed with
`app.use(limiter)` in front of every route (100 requests / 15 min / IP). -/
def ipLimiterMax : Nat := 100

/-- The Express app's dispatch for one request: the global IP rate limiter
runs first (it fronts every route, `/health` included); `ipHits` is the
number of requests already counted for the client's address in the current
15-minute window. Then routing: `GET /health`, `POST /generate`, 404. -/
def genkitApp (ipHits : Nat) (method : HttpMethod) (path : String)
    (apiKey prompt : Option JsValue) (now : Nat) (upstream : UpstreamResult) :
    HttpResponse :=
  if ipHits ≥ ipLimiterMax then
    ⟨429, .error "Too many requests from this IP, please try again later."⟩
  else if method = .GET && path = "/health" then
    healthHandler now
  else if method = .POST && path = "/generate" then
    (postGenerate apiKey prompt now upstream).1
  else
    ⟨404, .error "Endpoint not found"⟩

/-- The Firebase HTTP entry point `generateWithGeminiHttp` (`index.js`
lines 148-200): CORS preflight, method check, ID-token verification
(modelled by `authUid`: `some uid` when `verifyIdToken` succeeds), prompt
presence/type/blank validation (no length cap), upstream call; any caught
error becomes a 500. It touches no Firestore state. -/
def generateWithGeminiHttp (method : HttpMethod) (authUid : Option String)
    (prompt : Option JsValue) (now : Nat) (upstream : UpstreamResult) :
    HttpResponse × List Event :=
  match method with
  | .OPTIONS => (⟨204, .empty⟩, [])
  | .POST =>
      match authUid with
      | none => (⟨401, .error "Unauthorized"⟩, [])
      | some _ =>
          if fieldInvalid prompt then
            (⟨400, .error "Invalid prompt"⟩, [.validate])
          else
            match upstream with
            | .err _ =>
                (⟨500, .error "Internal server error"⟩, [.validate, .upstreamCall])
            | .ok text =>
                (⟨200, .success text now⟩, [.validate, .upstreamCall])
  | _ => (⟨405, .error "Method not allowed"⟩, [])

def thirtyDaysMs : Nat := 30 * 24 * 60 * 60 * 1000

/-- Delete, from the front of the list, up to `n` elements satisfying `p`,
keeping everything else: the effect of a Firestore query
`.where(p).limit(n)` followed by a batched delete of the returned docs. -/
def deleteFirstMatching {α : Type} (p : α → Bool) : Nat → List α → List α
  | _, [] => []
  | 0, l => l
  | n + 1, e :: rest =>
      if p e then deleteFirstMatching p n rest
      else e :: deleteFirstMatching p (n + 1) rest

/-- The scheduled `cleanupLogs` job (`index.js` lines 205-227): delete up to
500 `usage_logs` documents with `timestamp < now - 30 days`. -/
def cleanupLogs (now : Nat) (store : Store) : Store :=
  { store with
    usageLogs :=
      deleteFirstMatching (fun e => e.timestamp < now - thirtyDaysMs)
        500 store.usageLogs }

/-- The error kind carried by a callable outcome, `none` on success. -/
def resultKind : CallResult → Option ErrorKind
  | .success _ _ => none
  | .failure k _ => some k

/-- Whether the callable outcome is a success (the request was allowed all
the way through). -/
def reqAllowed : CallResult → Bool
  | .success _ _ => true
  | .failure _ _ => false

/-- Run `n` consecutive callable requests from the same user with the same
prompt, wall clock and (successful) upstream result, threading the store;
returns whether every request succeeded, and the final store. -/
def runSeq (uid s text : String) (now : Nat) : Nat → Store → Bool × Store
  | 0, st => (true, st)
  | n + 1, st =>
      let r := generateWithGemini (some uid) (some (.str s)) now (.ok text) st
      let rest := runSeq uid s text now n r.2.1
      (reqAllowed r.1 && rest.1, rest.2)

/-- A concrete all-`'a'` string of the given length, used for the
8000-character boundary. -/
def aChars (n : Nat) : String := String.mk (List.replicate n 'a')

lemma aChars_length (n : Nat) : (aChars n).length = n := by
  simp [aChars, String.length]

lemma jsTrimEmpty_aChars (n : Nat) (h : 0 < n) :
    jsTrimEmpty (aChars n) = false := by
  cases n with
  | zero => exact absurd h (by simp)
  | succ m =>
      have ha : Char.isWhitespace 'a' = false := by decide
      simp [jsTrimEmpty, aChars, List.replicate_succ, ha]

lemma fieldInvalid_aChars (n : Nat) (h : 0 < n) :
    fieldInvalid (some (.str (aChars n))) = false := by
  simp [fieldInvalid, jsTrimEmpty_aChars n h]

lemma lookupRL_setRL_self (rls : List (String × RateLimitRecord))
    (uid : String) (r : RateLimitRecord) :
    lookupRL (setRL rls uid r) uid = some r := by
  induction rls with
  | nil => simp [setRL, lookupRL, List.find?]
  | cons kv rest ih =>
      obtain ⟨k, v⟩ := kv
      cases hbeq : (k == uid) with
      | true => simp [setRL, lookupRL, List.find?, hbeq]
      | false =>
          simp only [setRL, hbeq, Bool.false_eq_true, if_false]
          simpa [lookupRL, List.find?, hbeq] using ih

lemma deleteFirstMatching_sublist {α : Type} (p : α → Bool) :
    ∀ (n : Nat) (l : List α), (deleteFirstMatching p n l).Sublist l := by
  intro n l
  induction l generalizing n with
  | nil => simp [deleteFirstMatching]
  | cons e rest ih =>
      cases n with
      | zero => simp [deleteFirstMatching]
      | succ m =>
          by_cases h : p e
          · simp only [deleteFirstMatching, h, if_true]
            exact (ih m).cons e
          · simp only [deleteFirstMatching, h, if_false]
            exact (ih (m + 1)).cons₂ e

lemma deleteFirstMatching_length {α : Type} (p : α → Bool) :
    ∀ (n : Nat) (l : List α),
      l.length ≤ (deleteFirstMatching p n l).length + n := by
  intro n l
  induction l generalizing n with
  | nil => simp [deleteFirstMatching]
  | cons e rest ih =>
      cases n with
      | zero => simp [deleteFirstMatching]
      | succ m =>
          cases hp : p e with
          | true =>
              simp only [deleteFirstMatching, hp, if_true, List.length_cons]
              have := ih m
              omega
          | false =>
              simp only [deleteFirstMatching, hp, Bool.false_eq_true, if_false,
                List.length_cons]
              have := ih (m + 1)
              omega

lemma deleteFirstMatching_keeps {α : Type} (p : α → Bool) :
    ∀ (n : Nat) (l : List α),
      (deleteFirstMatching p n l).filter (fun a => ! p a) =
        l.filter (fun a => ! p a) := by
  intro n l
  induction l generalizing n with
  | nil => simp [deleteFirstMatching]
  | cons e rest ih =>
      cases n with
      | zero => simp [deleteFirstMatching]
      | succ m =>
          cases hp : p e with
          | true => simp [deleteFirstMatching, hp, List.filter, ih m]
          | false => simp [deleteFirstMatching, hp, List.filter, ih (m + 1)]

lemma generateWithGemini_valid (uid s : String) (now : Nat)
    (up : UpstreamResult) (store : Store)
    (hs : jsTrimEmpty s = false) (hl : s.length ≤ 8000) :
    generateWithGemini (some uid) (some (.str s)) now up store =
      runGenerate uid s now up store := by
  have hl' : ¬ s.length > 8000 := by omega
  simp [generateWithGemini, validatePrompt, fieldInvalid, hs, hl']

lemma runGenerate_denied (uid s : String) (now : Nat) (up : UpstreamResult)
    (store : Store)
    (hd : rlDenied (lookupRL store.rateLimits uid) now = true) :
    runGenerate uid s now up store =
      (.failure .resourceExhausted "Rate limit exceeded. Try again later.",
        store, [.validate, .rlRead]) := by
  simp [runGenerate, hd]

lemma runGenerate_err (uid s : String) (now : Nat) (msg : String)
    (store : Store)
    (hd : rlDenied (lookupRL store.rateLimits uid) now = false) :
    runGenerate uid s now (.err msg) store =
      (.failure (classifyUpstreamError msg).1 (classifyUpstreamError msg).2,
        store, [.validate, .rlRead, .upstreamCall]) := by
  simp [runGenerate, hd]

lemma runGenerate_ok_fresh (uid s : String) (now : Nat) (text : String)
    (store : Store) (h : lookupRL store.rateLimits uid = none) :
    runGenerate uid s now (.ok text) store =
      (.success text now,
        ⟨setRL store.rateLimits uid ⟨1, now⟩,
          store.usageLogs ++ [⟨uid, now, s.length, text.length, "gemini-pro"⟩]⟩,
        [.validate, .rlRead, .upstreamCall, .rlWrite, .logWrite]) := by
  simp [runGenerate, rlDenied, h]

lemma runGenerate_ok_within (uid s : String) (now : Nat) (text : String)
    (store : Store) (d : RateLimitRecord)
    (h : lookupRL store.rateLimits uid = some d)
    (hw : now - d.lastReset < oneHour) (hc : d.count < 20) :
    runGenerate uid s now (.ok text) store =
      (.success text now,
        ⟨setRL store.rateLimits uid ⟨d.count + 1, d.lastReset⟩,
          store.usageLogs ++ [⟨uid, now, s.length, text.length, "gemini-pro"⟩]⟩,
        [.validate, .rlRead, .upstreamCall, .rlWrite, .logWrite]) := by
  have hnc : ¬ d.count ≥ 20 := by omega
  simp [runGenerate, rlDenied, h, hw, hnc]

lemma runGenerate_ok_expired (uid s : String) (now : Nat) (text : String)
    (store : Store) (d : RateLimitRecord)
    (h : lookupRL store.rateLimits uid = some d)
    (hw : oneHour ≤ now - d.lastReset) :
    runGenerate uid s now (.ok text) store =
      (.success text now,
        ⟨setRL store.rateLimits uid ⟨1, now⟩,
          store.usageLogs ++ [⟨uid, now, s.length, text.length, "gemini-pro"⟩]⟩,
        [.validate, .rlRead, .upstreamCall, .rlWrite, .logWrite]) := by
  have hnw : ¬ now - d.lastReset < oneHour := by omega
  simp [runGenerate, rlDenied, h, hnw]

lemma runSeq_within (uid s text : String) (now : Nat)
    (hs : jsTrimEmpty s = false) (hl : s.length ≤ 8000) :
    ∀ (n c : Nat) (st : Store),
      lookupRL st.rateLimits uid = some ⟨c, now⟩ → c + n ≤ 20 →
      (runSeq uid s text now n st).1 = true ∧
      lookupRL (runSeq uid s text now n st).2.rateLimits uid =
        some ⟨c + n, now⟩ := by
  intro n
  induction n with
  | zero => intro c st hlk _; simpa [runSeq] using hlk
  | succ m ih =>
      intro c st hlk hle
      have hw : now - now < oneHour := by simp [oneHour]
      have hc : c < 20 := by omega
      have hstep := (generateWithGemini_valid uid s now (.ok text) st hs hl).trans
        (runGenerate_ok_within uid s now text st ⟨c, now⟩ hlk hw hc)
      have hlk2 : lookupRL
          ((generateWithGemini (some uid) (some (.str s)) now (.ok text)
            st).2.1).rateLimits uid = some ⟨c + 1, now⟩ := by
        rw [hstep]
        exact lookupRL_setRL_self st.rateLimits uid ⟨c + 1, now⟩
      have hle2 : (c + 1) + m ≤ 20 := by omega
      have hrec := ih (c + 1) _ hlk2 hle2
      constructor
      · simp only [runSeq]
        rw [hstep] at hrec ⊢
        simp only [reqAllowed, Bool.true_and]
        exact hrec.1
      · simp only [runSeq]
        rw [hstep] at hrec ⊢
        have : c + 1 + m = c + (m + 1) := by omega
        rw [this] at hrec
        exact hrec.2

lemma deleteFirstMatching_clean {α : Type} (p : α → Bool) :
    ∀ (n : Nat) (l : List α), (∀ e, e ∈ l → p e = false) →
      deleteFirstMatching p n l = l := by
  intro n l
  induction l generalizing n with
  | nil => intro _; cases n <;> rfl
  | cons e rest ih =>
      intro hc
      cases n with
      | zero => rfl
      | succ m =>
          have he : p e = false := hc e (List.mem_cons_self e rest)
          simp only [deleteFirstMatching, he, Bool.false_eq_true, if_false]
          have := ih (m + 1) (fun x hx => hc x (List.mem_cons_of_mem e hx))
          rw [this]

/-- Claim C1, counterexample: in the callable entry point, the upstream
error message `API_KEY_INVALID` is surfaced as `internal`
("AI service configuration error."), not as `unauthenticated`. -/
theorem C1_counterexample :
    (generateWithGemini (some "u") (some (.str "hi")) 0
        (.err "API_KEY_INVALID") emptyStore).1 =
      .failure .internal "AI service configuration error." ∧
    resultKind (generateWithGemini (some "u") (some (.str "hi")) 0
        (.err "API_KEY_INVALID") emptyStore).1 = some .internal := by
  constructor <;> decide

/-- Claim C1, amended: the HTTP `/generate` route surfaces an invalid-key
class message as 401 (unauthenticated), but the callable surfaces it as
`internal`; in both handlers a quota-class message maps to
resource-exhausted (429), a safety-class message to invalid-argument (400),
and any other upstream failure to internal (500), and an upstream failure
reaching the handler is classified exactly by these rules. -/
theorem C1_error_mapping :
    (∀ msg, strContains msg "API_KEY_INVALID" = true →
      classifyUpstreamError msg =
        (.internal, "AI service configuration error.")) ∧
    (∀ msg, strContains msg "API_KEY_INVALID" = false →
      strContains msg "QUOTA_EXCEEDED" = true →
      classifyUpstreamError msg =
        (.resourceExhausted, "AI service quota exceeded. Please try again later.")) ∧
    (∀ msg, strContains msg "API_KEY_INVALID" = false →
      strContains msg "QUOTA_EXCEEDED" = false →
      strContains msg "SAFETY" = true →
      classifyUpstreamError msg =
        (.invalidArgument, "Content was blocked due to safety policies.")) ∧
    (∀ msg, strContains msg "API_KEY_INVALID" = false →
      strContains msg "QUOTA_EXCEEDED" = false →
      strContains msg "SAFETY" = false →
      classifyUpstreamError msg = (.internal, "Failed to generate content.")) ∧
    (∀ msg, (strContains msg "API_KEY_INVALID" ||
        strContains msg "invalid API key") = true →
      classifyHttpUpstreamError msg = (401, "Invalid API key provided")) ∧
    (∀ msg, (strContains msg "API_KEY_INVALID" ||
        strContains msg "invalid API key") = false →
      (strContains msg "quota" || strContains msg "QUOTA_EXCEEDED") = true →
      classifyHttpUpstreamError msg = (429, "API quota exceeded")) ∧
    (∀ msg, (strContains msg "API_KEY_INVALID" ||
        strContains msg "invalid API key") = false →
      (strContains msg "quota" || strContains msg "QUOTA_EXCEEDED") = false →
      strContains msg "SAFETY" = true →
      classifyHttpUpstreamError msg =
        (400, "Content was blocked due to safety concerns")) ∧
    (∀ msg, (strContains msg "API_KEY_INVALID" ||
        strContains msg "invalid API key") = false →
      (strContains msg "quota" || strContains msg "QUOTA_EXCEEDED") = false →
      strContains msg "SAFETY" = false →
      classifyHttpUpstreamError msg = (500, "Failed to generate content")) ∧
    (∀ (uid s msg : String) (now : Nat) (store : Store),
      jsTrimEmpty s = false → s.length ≤ 8000 →
      rlDenied (lookupRL store.rateLimits uid) now = false →
      (generateWithGemini (some uid) (some (.str s)) now (.err msg) store).1 =
        .failure (classifyUpstreamError msg).1 (classifyUpstreamError msg).2) ∧
    (∀ (key prompt : Option JsValue) (now : Nat) (msg : String),
      fieldInvalid key = false → fieldInvalid prompt = false →
      (postGenerate key prompt now (.err msg)).1 =
        ⟨(classifyHttpUpstreamError msg).1,
          .error (classifyHttpUpstreamError msg).2⟩) := by
  refine ⟨?_, ?_, ?_, ?_, ?_, ?_, ?_, ?_, ?_, ?_⟩
  · intro msg h1; simp [classifyUpstreamError, h1]
  · intro msg h1 h2; simp [classifyUpstreamError, h1, h2]
  · intro msg h1 h2 h3; simp [classifyUpstreamError, h1, h2, h3]
  · intro msg h1 h2 h3; simp [classifyUpstreamError, h1, h2, h3]
  · intro msg h1; simp [classifyHttpUpstreamError, h1]
  · intro msg h1 h2; simp only [Bool.or_eq_false_iff] at h1
    simp [classifyHttpUpstreamError, h1.1, h1.2, h2]
  · intro msg h1 h2 h3
    simp only [Bool.or_eq_false_iff] at h1 h2
    simp [classifyHttpUpstreamError, h1.1, h1.2, h2.1, h2.2, h3]
  · intro msg h1 h2 h3
    simp only [Bool.or_eq_false_iff] at h1 h2
    simp [classifyHttpUpstreamError, h1.1, h1.2, h2.1, h2.2, h3]
  · intro uid s msg now store hs hl hd
    rw [generateWithGemini_valid uid s now (.err msg) store hs hl,
      runGenerate_err uid s now msg store hd]
  · intro key prompt now msg hk hp
    simp [postGenerate, hk, hp]

/-- Claim C1, witness: concrete instances of each mapping rule and of both
handlers surfacing a classified upstream failure. -/
theorem C1_error_mapping_witness :
    classifyUpstreamError "API_KEY_INVALID" =
      (.internal, "AI service configuration error.") ∧
    classifyUpstreamError "QUOTA_EXCEEDED for project" =
      (.resourceExhausted, "AI service quota exceeded. Please try again later.") ∧
    classifyUpstreamError "SAFETY block" =
      (.invalidArgument, "Content was blocked due to safety policies.") ∧
    classifyUpstreamError "ECONNRESET" =
      (.internal, "Failed to generate content.") ∧
    classifyHttpUpstreamError "invalid API key" =
      (401, "Invalid API key provided") ∧
    classifyHttpUpstreamError "quota exceeded" = (429, "API quota exceeded") ∧
    classifyHttpUpstreamError "SAFETY block" =
      (400, "Content was blocked due to safety concerns") ∧
    classifyHttpUpstreamError "ECONNRESET" =
      (500, "Failed to generate content") ∧
    (generateWithGemini (some "u") (some (.str "hi")) 5
        (.err "SAFETY block") emptyStore).1 =
      .failure (classifyUpstreamError "SAFETY block").1
        (classifyUpstreamError "SAFETY block").2 ∧
    (postGenerate (some (.str "k")) (some (.str "hi")) 5
        (.err "ECONNRESET")).1 =
      ⟨(classifyHttpUpstreamError "ECONNRESET").1,
        .error (classifyHttpUpstreamError "ECONNRESET").2⟩ := by
  obtain ⟨h1, h2, h3, h4, h5, h6, h7, h8, h9, h10⟩ := C1_error_mapping
  exact ⟨h1 _ (by decide), h2 _ (by decide) (by decide),
    h3 _ (by decide) (by decide) (by decide),
    h4 _ (by decide) (by decide) (by decide),
    h5 _ (by decide), h6 _ (by decide) (by decide),
    h7 _ (by decide) (by decide) (by decide),
    h8 _ (by decide) (by decide) (by decide),
    h9 "u" "hi" "SAFETY block" 5 emptyStore (by decide) (by decide) (by decide),
    h10 (some (.str "k")) (some (.str "hi")) 5 "ECONNRESET" (by decide)
      (by decide)⟩

/-- Claim C2: a user whose rate-limit record has `count >= 20` inside the
current one-hour window is denied with resource-exhausted, with the store
untouched (no record write, no log entry) and a trace that never reaches
the upstream call — for every possible upstream result; and a user with no
prior record gets 20 successful requests within the window, while the 21st
is denied. -/
theorem C2_rate_limit :
    (∀ (store : Store) (uid s : String) (now : Nat) (d : RateLimitRecord)
        (up : UpstreamResult),
      lookupRL store.rateLimits uid = some d → d.count ≥ 20 →
      now - d.lastReset < oneHour → jsTrimEmpty s = false → s.length ≤ 8000 →
      generateWithGemini (some uid) (some (.str s)) now up store =
        (.failure .resourceExhausted "Rate limit exceeded. Try again later.",
          store, [.validate, .rlRead])) ∧
    (∀ (uid s text : String) (now : Nat) (store : Store),
      jsTrimEmpty s = false → s.length ≤ 8000 →
      lookupRL store.rateLimits uid = none →
      (runSeq uid s text now 20 store).1 = true ∧
      generateWithGemini (some uid) (some (.str s)) now (.ok text)
          (runSeq uid s text now 20 store).2 =
        (.failure .resourceExhausted "Rate limit exceeded. Try again later.",
          (runSeq uid s text now 20 store).2, [.validate, .rlRead])) := by
  constructor
  · intro store uid s now d up hlk hc hw hs hl
    rw [generateWithGemini_valid uid s now up store hs hl]
    apply runGenerate_denied
    simp [rlDenied, hlk, hw, hc]
  · intro uid s text now store hs hl hlk
    have hstep1 := (generateWithGemini_valid uid s now (.ok text) store hs
      hl).trans (runGenerate_ok_fresh uid s now text store hlk)
    have hlk1 : lookupRL
        ((⟨setRL store.rateLimits uid ⟨1, now⟩, store.usageLogs ++
          [⟨uid, now, s.length, text.length, "gemini-pro"⟩]⟩ : Store)).rateLimits
          uid = some ⟨1, now⟩ :=
      lookupRL_setRL_self store.rateLimits uid ⟨1, now⟩
    have hrec := runSeq_within uid s text now hs hl 19 1 _ hlk1 (by omega)
    have h20 : (20 : Nat) = 19 + 1 := by norm_num
    have hunf : runSeq uid s text now 20 store =
        (reqAllowed (CallResult.success text now) &&
          (runSeq uid s text now 19
            (⟨setRL store.rateLimits uid ⟨1, now⟩, store.usageLogs ++
              [⟨uid, now, s.length, text.length, "gemini-pro"⟩]⟩ : Store)).1,
         (runSeq uid s text now 19
            (⟨setRL store.rateLimits uid ⟨1, now⟩, store.usageLogs ++
              [⟨uid, now, s.length, text.length, "gemini-pro"⟩]⟩ : Store)).2) := by
      rw [h20]
      conv_lhs => rw [runSeq]
      rw [hstep1]
    rw [hunf]
    refine ⟨by simp [reqAllowed, hrec.1], ?_⟩
    simp only []
    rw [generateWithGemini_valid uid s now (.ok text) _ hs hl]
    apply runGenerate_denied
    simp [rlDenied, hrec.2, oneHour]

/-- Claim C2, witness: a maxed-out record is denied untouched, and a fresh
user's requests 1-20 all succeed while request 21 is denied. -/
theorem C2_rate_limit_witness :
    generateWithGemini (some "u") (some (.str "hi")) 5 (.ok "t")
        ⟨[("u", ⟨20, 0⟩)], []⟩ =
      (.failure .resourceExhausted "Rate limit exceeded. Try again later.",
        ⟨[("u", ⟨20, 0⟩)], []⟩, [.validate, .rlRead]) ∧
    (runSeq "u" "hi" "t" 0 20 emptyStore).1 = true ∧
    generateWithGemini (some "u") (some (.str "hi")) 0 (.ok "t")
        (runSeq "u" "hi" "t" 0 20 emptyStore).2 =
      (.failure .resourceExhausted "Rate limit exceeded. Try again later.",
        (runSeq "u" "hi" "t" 0 20 emptyStore).2, [.validate, .rlRead]) := by
  refine ⟨C2_rate_limit.1 ⟨[("u", ⟨20, 0⟩)], []⟩ "u" "hi" 5 ⟨20, 0⟩ (.ok "t")
      (by decide) (by decide) (by decide) (by decide) (by decide),
    (C2_rate_limit.2 "u" "hi" "t" 0 emptyStore (by decide) (by decide)
      (by decide)).1,
    (C2_rate_limit.2 "u" "hi" "t" 0 emptyStore (by decide) (by decide)
      (by decide)).2⟩

/-- Claim C3: when the stored window is at least one hour old, the next
valid request reaches the upstream call regardless of the stored count, and
on upstream success the record is rewritten to count 1 with the window
start reset to the current time. -/
theorem C3_window_reset :
    ∀ (store : Store) (uid s : String) (now : Nat) (d : RateLimitRecord),
      lookupRL store.rateLimits uid = some d →
      oneHour ≤ now - d.lastReset →
      jsTrimEmpty s = false → s.length ≤ 8000 →
      (∀ up : UpstreamResult,
        Event.upstreamCall ∈
          (generateWithGemini (some uid) (some (.str s)) now up store).2.2) ∧
      (∀ text : String,
        generateWithGemini (some uid) (some (.str s)) now (.ok text) store =
          (.success text now,
            ⟨setRL store.rateLimits uid ⟨1, now⟩, store.usageLogs ++
              [⟨uid, now, s.length, text.length, "gemini-pro"⟩]⟩,
            [.validate, .rlRead, .upstreamCall, .rlWrite, .logWrite]) ∧
        lookupRL (generateWithGemini (some uid) (some (.str s)) now (.ok text)
            store).2.1.rateLimits uid = some ⟨1, now⟩) := by
  intro store uid s now d hlk hw hs hl
  have hd : rlDenied (lookupRL store.rateLimits uid) now = false := by
    have hnw : ¬ now - d.lastReset < oneHour := by omega
    simp [rlDenied, hlk, hnw]
  constructor
  · intro up
    rw [generateWithGemini_valid uid s now up store hs hl]
    cases up with
    | err msg => rw [runGenerate_err uid s now msg store hd]; simp
    | ok text =>
        rw [runGenerate_ok_expired uid s now text store d hlk hw]; simp
  · intro text
    have hst := (generateWithGemini_valid uid s now (.ok text) store hs
      hl).trans (runGenerate_ok_expired uid s now text store d hlk hw)
    refine ⟨hst, ?_⟩
    rw [hst]
    exact lookupRL_setRL_self store.rateLimits uid ⟨1, now⟩

/-- Claim C3, witness: a record with count 17 whose window started one hour
ago is reset to count 1 by the next successful request. -/
theorem C3_window_reset_witness :
    Event.upstreamCall ∈
      (generateWithGemini (some "u") (some (.str "hi")) 3600000
        (.err "boom") ⟨[("u", ⟨17, 0⟩)], []⟩).2.2 ∧
    generateWithGemini (some "u") (some (.str "hi")) 3600000 (.ok "t")
        ⟨[("u", ⟨17, 0⟩)], []⟩ =
      (.success "t" 3600000,
        ⟨setRL [("u", ⟨17, 0⟩)] "u" ⟨1, 3600000⟩,
          [] ++ [⟨"u", 3600000, "hi".length, "t".length, "gemini-pro"⟩]⟩,
        [.validate, .rlRead, .upstreamCall, .rlWrite, .logWrite]) ∧
    lookupRL (generateWithGemini (some "u") (some (.str "hi")) 3600000
        (.ok "t") ⟨[("u", ⟨17, 0⟩)], []⟩).2.1.rateLimits "u" =
      some ⟨1, 3600000⟩ := by
  have h := C3_window_reset ⟨[("u", ⟨17, 0⟩)], []⟩ "u" "hi" 3600000 ⟨17, 0⟩
    (by decide) (by decide) (by decide) (by decide)
  exact ⟨h.1 (.err "boom"), (h.2 "t").1, (h.2 "t").2⟩

/-- Claim C4, counterexample: a non-blank prompt of 8001 characters is
rejected by the callable entry point as invalid-argument but accepted with
a 200 by the HTTP `/generate` endpoint, so the two entry points do not
validate identically. -/
theorem C4_counterexample :
    (generateWithGemini (some "u") (some (.str (aChars 8001))) 0 (.ok "hi")
        emptyStore).1 =
      .failure .invalidArgument
        "Prompt is too long. Maximum 8000 characters allowed." ∧
    (postGenerate (some (.str "k")) (some (.str (aChars 8001))) 0
        (.ok "hi")).1 = ⟨200, .success "hi" 0⟩ := by
  have hf : fieldInvalid (some (.str (aChars 8001))) = false :=
    fieldInvalid_aChars 8001 (by norm_num)
  have hlen : (aChars 8001).length > 8000 := by rw [aChars_length]; norm_num
  have hk : fieldInvalid (some (.str "k")) = false := by decide
  have hhi : jsTrimEmpty "hi" = false := by decide
  constructor
  · simp [generateWithGemini, validatePrompt, hf, hlen]
  · simp [postGenerate, hk, hf, hhi]

/-- Claim C4, amended: the two entry points agree in rejecting an absent,
non-string, or blank prompt, but they are not functionally identical: the
callable additionally enforces the 8000-character cap, which the HTTP
endpoint does not check. -/
theorem C4_entry_points :
    (∀ (uid : String) (prompt : Option JsValue) (now : Nat)
        (up : UpstreamResult) (store : Store),
      fieldInvalid prompt = true →
      generateWithGemini (some uid) prompt now up store =
        (.failure .invalidArgument
          "Prompt is required and must be a non-empty string.",
          store, [.validate])) ∧
    (∀ (key prompt : Option JsValue) (now : Nat) (up : UpstreamResult),
      fieldInvalid key = false → fieldInvalid prompt = true →
      (postGenerate key prompt now up).1 =
        ⟨400, .error "Prompt is required and must be a non-empty string"⟩) ∧
    (∀ (uid : String) (key : Option JsValue) (s text : String) (now : Nat)
        (store : Store),
      jsTrimEmpty s = false → s.length > 8000 → jsTrimEmpty text = false →
      fieldInvalid key = false →
      (generateWithGemini (some uid) (some (.str s)) now (.ok text)
          store).1 =
        .failure .invalidArgument
          "Prompt is too long. Maximum 8000 characters allowed." ∧
      (postGenerate key (some (.str s)) now (.ok text)).1 =
        ⟨200, .success text now⟩) := by
  refine ⟨?_, ?_, ?_⟩
  · intro uid prompt now up store h
    simp [generateWithGemini, validatePrompt, h]
  · intro key prompt now up hk hp
    simp [postGenerate, hk, hp]
  · intro uid key s text now store hs hlen htext hk
    have hfp : fieldInvalid (some (.str s)) = false := by
      simp [fieldInvalid, hs]
    constructor
    · simp [generateWithGemini, validatePrompt, hfp, hlen]
    · simp [postGenerate, hk, hfp, htext]

/-- Claim C4, witness: concrete agreement on a blank prompt and concrete
divergence on an 8001-character prompt. -/
theorem C4_entry_points_witness :
    generateWithGemini (some "u") (some (.str " ")) 0 (.ok "t") emptyStore =
      (.failure .invalidArgument
        "Prompt is required and must be a non-empty string.",
        emptyStore, [.validate]) ∧
    (postGenerate (some (.str "k")) (some (.str " ")) 0 (.ok "t")).1 =
      ⟨400, .error "Prompt is required and must be a non-empty string"⟩ ∧
    (generateWithGemini (some "u") (some (.str (aChars 8001))) 0 (.ok "t")
        emptyStore).1 =
      .failure .invalidArgument
        "Prompt is too long. Maximum 8000 characters allowed." ∧
    (postGenerate (some (.str "k")) (some (.str (aChars 8001))) 0
        (.ok "t")).1 = ⟨200, .success "t" 0⟩ := by
  obtain ⟨h1, h2, h3⟩ := C4_entry_points
  have hd := h3 "u" (some (.str "k")) (aChars 8001) "t" 0 emptyStore
    (jsTrimEmpty_aChars 8001 (by norm_num))
    (by rw [aChars_length]; norm_num) (by decide) (by decide)
  exact ⟨h1 "u" (some (.str " ")) 0 (.ok "t") emptyStore (by decide),
    h2 (some (.str "k")) (some (.str " ")) 0 (.ok "t") (by decide)
      (by decide), hd.1, hd.2⟩

/-- Claim C5, counterexample: on a concrete successful request the trace is
validate, rate-limit read, upstream call, rate-limit write, log write — the
rate-limit record write happens after the upstream generation call, not
before it as the claim states. -/
theorem C5_counterexample :
    (generateWithGemini (some "u") (some (.str "hi")) 0 (.ok "ok")
        emptyStore).2.2 =
      [.validate, .rlRead, .upstreamCall, .rlWrite, .logWrite] ∧
    List.indexOf Event.upstreamCall
        ((generateWithGemini (some "u") (some (.str "hi")) 0 (.ok "ok")
          emptyStore).2.2) <
      List.indexOf Event.rlWrite
        ((generateWithGemini (some "u") (some (.str "hi")) 0 (.ok "ok")
          emptyStore).2.2) := by
  constructor <;> decide

/-- Claim C5, amended: within one successful request the steps run
sequentially in the order validate, rate-limit read, upstream call,
rate-limit write, log write — the record write follows the upstream call. -/
theorem C5_execution_order :
    ∀ (uid s text : String) (now : Nat) (store : Store),
      jsTrimEmpty s = false → s.length ≤ 8000 →
      rlDenied (lookupRL store.rateLimits uid) now = false →
      (generateWithGemini (some uid) (some (.str s)) now (.ok text)
          store).2.2 =
        [.validate, .rlRead, .upstreamCall, .rlWrite, .logWrite] := by
  intro uid s text now store hs hl hd
  rw [generateWithGemini_valid uid s now (.ok text) store hs hl]
  simp [runGenerate, hd]

/-- Claim C5, witness: the order theorem at a concrete request. -/
theorem C5_execution_order_witness :
    (generateWithGemini (some "u") (some (.str "hey")) 9 (.ok "t")
        emptyStore).2.2 =
      [.validate, .rlRead, .upstreamCall, .rlWrite, .logWrite] :=
  C5_execution_order "u" "hey" "t" 9 emptyStore (by decide) (by decide)
    (by decide)

/-- Claim C6: the callable rejects as invalid-argument a prompt that is
absent, non-string, or blank after trimming, and one longer than 8000
characters; a non-blank 8000-character prompt passes validation; and a
rejected prompt leaves the store untouched with a trace that never reaches
the upstream call or the log write. -/
theorem C6_validation :
    fieldInvalid none = true ∧
    (∀ t : Bool, fieldInvalid (some (.other t)) = true) ∧
    (∀ s : String, fieldInvalid (some (.str s)) = jsTrimEmpty s) ∧
    (∀ prompt : Option JsValue, fieldInvalid prompt = true →
      validatePrompt prompt =
        .error "Prompt is required and must be a non-empty string.") ∧
    (∀ s : String, jsTrimEmpty s = false → s.length > 8000 →
      validatePrompt (some (.str s)) =
        .error "Prompt is too long. Maximum 8000 characters allowed.") ∧
    (∀ s : String, jsTrimEmpty s = false → s.length = 8000 →
      validatePrompt (some (.str s)) = .ok s) ∧
    (∀ (uid : String) (prompt : Option JsValue) (now : Nat)
        (up : UpstreamResult) (store : Store) (m : String),
      validatePrompt prompt = .error m →
      generateWithGemini (some uid) prompt now up store =
        (.failure .invalidArgument m, store, [.validate])) := by
  refine ⟨rfl, fun t => rfl, fun s => rfl, ?_, ?_, ?_, ?_⟩
  · intro prompt h; simp [validatePrompt, h]
  · intro s hs hlen
    have hfp : fieldInvalid (some (.str s)) = false := by
      simp [fieldInvalid, hs]
    simp [validatePrompt, hfp, hlen]
  · intro s hs hlen
    have hfp : fieldInvalid (some (.str s)) = false := by
      simp [fieldInvalid, hs]
    have hgt : ¬ s.length > 8000 := by omega
    simp [validatePrompt, hfp, hgt]
  · intro uid prompt now up store m h
    simp [generateWithGemini, h]

/-- Claim C6, witness: the empty prompt and a blank prompt are rejected, an
8001-character prompt is rejected, an 8000-character prompt is accepted,
and a rejected request changes nothing and calls nothing. -/
theorem C6_validation_witness :
    validatePrompt (some (.str "")) =
      .error "Prompt is required and must be a non-empty string." ∧
    validatePrompt (some (.str (aChars 8001))) =
      .error "Prompt is too long. Maximum 8000 characters allowed." ∧
    validatePrompt (some (.str (aChars 8000))) = .ok (aChars 8000) ∧
    generateWithGemini (some "u") none 4 (.ok "t") emptyStore =
      (.failure .invalidArgument
        "Prompt is required and must be a non-empty string.",
        emptyStore, [.validate]) := by
  obtain ⟨-, -, -, h4, h5, h6, h7⟩ := C6_validation
  exact ⟨h4 (some (.str "")) (by decide),
    h5 (aChars 8001) (jsTrimEmpty_aChars 8001 (by norm_num))
      (by rw [aChars_length]; norm_num),
    h6 (aChars 8000) (jsTrimEmpty_aChars 8000 (by norm_num))
      (aChars_length 8000),
    h7 "u" none 4 (.ok "t") emptyStore
      "Prompt is required and must be a non-empty string." rfl⟩

/-- Claim C7, counterexample: when the upstream call returns empty text,
the callable entry point succeeds with an empty `response` string instead
of failing with an internal error. -/
theorem C7_counterexample :
    (generateWithGemini (some "u") (some (.str "hi")) 0 (.ok "")
        emptyStore).1 = .success "" 0 ∧
    reqAllowed (generateWithGemini (some "u") (some (.str "hi")) 0 (.ok "")
        emptyStore).1 = true := by
  constructor <;> decide

/-- Claim C7, amended: the HTTP `/generate` endpoint turns blank upstream
text into a 500 ("No content was generated") and every 200 response it
produces carries a non-blank response string and the request timestamp;
the callable returns the upstream text unchanged as a success, even when
the text is empty. -/
theorem C7_success_payload :
    (∀ (key prompt : Option JsValue) (now : Nat) (text : String),
      fieldInvalid key = false → fieldInvalid prompt = false →
      jsTrimEmpty text = true →
      (postGenerate key prompt now (.ok text)).1 =
        ⟨500, .error "No content was generated"⟩) ∧
    (∀ (key prompt : Option JsValue) (now : Nat) (up : UpstreamResult)
        (r : String) (t : Nat),
      (postGenerate key prompt now up).1 = ⟨200, .success r t⟩ →
      jsTrimEmpty r = false ∧ t = now) ∧
    (∀ (uid s text : String) (now : Nat) (store : Store),
      jsTrimEmpty s = false → s.length ≤ 8000 →
      rlDenied (lookupRL store.rateLimits uid) now = false →
      (generateWithGemini (some uid) (some (.str s)) now (.ok text)
          store).1 = .success text now) := by
  refine ⟨?_, ?_, ?_⟩
  · intro key prompt now text hk hp ht
    simp [postGenerate, hk, hp, ht]
  · intro key prompt now up r t h
    cases hk : fieldInvalid key with
    | true => simp [postGenerate, hk] at h
    | false =>
        cases hp : fieldInvalid prompt with
        | true => simp [postGenerate, hk, hp] at h
        | false =>
            cases up with
            | err m => simp [postGenerate, hk, hp] at h
            | ok text =>
                cases ht : jsTrimEmpty text with
                | true => simp [postGenerate, hk, hp, ht] at h
                | false =>
                    simp [postGenerate, hk, hp, ht] at h
                    refine ⟨?_, h.2.symm⟩
                    rw [← h.1]
                    exact ht
  · intro uid s text now store hs hl hd
    rw [generateWithGemini_valid uid s now (.ok text) store hs hl]
    simp [runGenerate, hd]

/-- Claim C7, witness: blank upstream text gives a 500 on the HTTP
endpoint, a concrete 200 response carries a non-blank string and the
request time, and the callable passes upstream text through unchanged. -/
theorem C7_success_payload_witness :
    (postGenerate (some (.str "k")) (some (.str "hi")) 2 (.ok " ")).1 =
      ⟨500, .error "No content was generated"⟩ ∧
    (jsTrimEmpty "t" = false ∧ (3 : Nat) = 3) ∧
    (generateWithGemini (some "u") (some (.str "hi")) 4 (.ok "out")
        emptyStore).1 = .success "out" 4 := by
  obtain ⟨h1, h2, h3⟩ := C7_success_payload
  exact ⟨h1 (some (.str "k")) (some (.str "hi")) 2 " " (by decide)
      (by decide) (by decide),
    h2 (some (.str "k")) (some (.str "hi")) 3 (.ok "t") "t" 3 (by decide),
    h3 "u" "hi" "out" 4 emptyStore (by decide) (by decide) (by decide)⟩

/-- Claim C8: the retention sweep leaves the rate-limit collection
untouched, removes only a sub-list of the usage logs, removes at most 500
entries, keeps every entry that is not older than 30 days exactly as it
was, and applied twice to an already-clean store it is the identity. -/
theorem C8_retention :
    ∀ (now : Nat) (store : Store),
      (cleanupLogs now store).rateLimits = store.rateLimits ∧
      (cleanupLogs now store).usageLogs.Sublist store.usageLogs ∧
      store.usageLogs.length ≤ (cleanupLogs now store).usageLogs.length + 500 ∧
      (cleanupLogs now store).usageLogs.filter
          (fun e => ! decide (e.timestamp < now - thirtyDaysMs)) =
        store.usageLogs.filter
          (fun e => ! decide (e.timestamp < now - thirtyDaysMs)) ∧
      ((∀ e, e ∈ store.usageLogs → ¬ e.timestamp < now - thirtyDaysMs) →
        cleanupLogs now (cleanupLogs now store) = store) := by
  intro now store
  refine ⟨rfl, deleteFirstMatching_sublist _ _ _,
    deleteFirstMatching_length _ _ _, deleteFirstMatching_keeps _ _ _, ?_⟩
  intro hclean
  have hc : ∀ e, e ∈ store.usageLogs →
      (fun e : UsageLogEntry => decide (e.timestamp < now - thirtyDaysMs)) e
        = false := by
    intro e he
    simp [hclean e he]
  have h1 : cleanupLogs now store = store := by
    unfold cleanupLogs
    rw [deleteFirstMatching_clean _ _ _ hc]
  rw [h1, h1]

/-- Claim C8, witness: a store whose single log entry is fresh is left
untouched by two consecutive sweeps, and its rate-limit records survive. -/
theorem C8_retention_witness :
    (cleanupLogs thirtyDaysMs
        ⟨[("u", ⟨2, 1⟩)], [⟨"u", 0, 5, 7, "gemini-pro"⟩]⟩).rateLimits =
      [("u", ⟨2, 1⟩)] ∧
    cleanupLogs thirtyDaysMs (cleanupLogs thirtyDaysMs
        ⟨[("u", ⟨2, 1⟩)], [⟨"u", 0, 5, 7, "gemini-pro"⟩]⟩) =
      ⟨[("u", ⟨2, 1⟩)], [⟨"u", 0, 5, 7, "gemini-pro"⟩]⟩ := by
  have h := C8_retention thirtyDaysMs
    ⟨[("u", ⟨2, 1⟩)], [⟨"u", 0, 5, 7, "gemini-pro"⟩]⟩
  exact ⟨h.1, h.2.2.2.2 (by decide)⟩

/-- Claim C9: a POST to the Firebase HTTP entry point with a verified
token and a prompt that is non-blank after trimming always goes straight
to the upstream call — no length cap, no rate-limit read or write, no log
write — and an 8001-character prompt that the callable rejects is accepted
here with a 200. -/
theorem C9_http_no_rate_limit :
    (∀ (uid s : String) (now : Nat) (up : UpstreamResult),
      jsTrimEmpty s = false →
      (generateWithGeminiHttp .POST (some uid) (some (.str s)) now up).2 =
        [.validate, .upstreamCall] ∧
      (∀ e, e ∈ (generateWithGeminiHttp .POST (some uid) (some (.str s))
          now up).2 → e = .validate ∨ e = .upstreamCall) ∧
      (∀ text, up = .ok text →
        (generateWithGeminiHttp .POST (some uid) (some (.str s)) now up).1 =
          ⟨200, .success text now⟩)) ∧
    (generateWithGeminiHttp .POST (some "u") (some (.str (aChars 8001))) 0
        (.ok "ok")).1 = ⟨200, .success "ok" 0⟩ ∧
    (generateWithGemini (some "u") (some (.str (aChars 8001))) 0 (.ok "ok")
        emptyStore).1 =
      .failure .invalidArgument
        "Prompt is too long. Maximum 8000 characters allowed." := by
  have h8001 : fieldInvalid (some (.str (aChars 8001))) = false :=
    fieldInvalid_aChars 8001 (by norm_num)
  have hlen : (aChars 8001).length > 8000 := by rw [aChars_length]; norm_num
  refine ⟨?_, ?_, ?_⟩
  · intro uid s now up hs
    have hfp : fieldInvalid (some (.str s)) = false := by
      simp [fieldInvalid, hs]
    have ht : (generateWithGeminiHttp .POST (some uid) (some (.str s)) now
        up).2 = [.validate, .upstreamCall] := by
      cases up with
      | err m => simp [generateWithGeminiHttp, hfp]
      | ok text => simp [generateWithGeminiHttp, hfp]
    refine ⟨ht, ?_, ?_⟩
    · intro e he
      rw [ht] at he
      simpa using he
    · intro text hup
      subst hup
      simp [generateWithGeminiHttp, hfp]
  · simp [generateWithGeminiHttp, h8001]
  · simp [generateWithGemini, validatePrompt, h8001, hlen]

/-- Claim C9, witness: a concrete authenticated POST with a short prompt
reaches the upstream call with no rate-limit or log events, and succeeds
with the upstream text. -/
theorem C9_http_no_rate_limit_witness :
    (generateWithGeminiHttp .POST (some "u") (some (.str "hi")) 1
        (.err "boom")).2 = [.validate, .upstreamCall] ∧
    (generateWithGeminiHttp .POST (some "u") (some (.str "hi")) 1
        (.ok "t")).1 = ⟨200, .success "t" 1⟩ := by
  have h := C9_http_no_rate_limit.1
  exact ⟨(h "u" "hi" 1 (.err "boom") (by decide)).1,
    (h "u" "hi" 1 (.ok "t") (by decide)).2.2 "t" rfl⟩

/-- Claim C10, counterexample: a GET of `/health` from an address that has
exhausted the global IP rate limit receives a 429 from the limiter
middleware, not a 200 — the health probe is not unconditional. -/
theorem C10_counterexample :
    genkitApp 100 .GET "/health" none none 0 (.ok "x") =
      ⟨429, .error "Too many requests from this IP, please try again later."⟩ ∧
    (genkitApp 100 .GET "/health" none none 0 (.ok "x")).status = 429 := by
  constructor <;> decide

/-- Claim C10, amended: every GET of `/health` admitted by the global IP
rate limiter returns 200 with status "OK", a timestamp and the service
name, independent of the request body fields and of the upstream result. -/
theorem C10_health :
    ∀ (ipHits now : Nat) (key prompt : Option JsValue) (up : UpstreamResult),
      ipHits < ipLimiterMax →
      genkitApp ipHits .GET "/health" key prompt now up =
        ⟨200, .health "OK" now "Genkit Server"⟩ := by
  intro ipHits now key prompt up h
  have hn : ¬ ipHits ≥ ipLimiterMax := by omega
  simp [genkitApp, healthHandler, hn]

/-- Claim C10, witness: the health probe at a concrete fresh address. -/
theorem C10_health_witness :
    genkitApp 0 .GET "/health" none none 5 (.err "down") =
      ⟨200, .health "OK" 5 "Genkit Server"⟩ :=
  C10_health 0 5 none none (.err "down") (by decide)
